import Mathlib

/-!
Verification of the core of `physsim-viz` (file `src/lib.rs` of the
`physsim-viz-rust` crate): the simulation driver (`physics_step`), the
geometry tessellators (`cuboid_to_vertices`, `vector_to_vertices`), the
render routine (`draw`), the keyboard handlers, and `Drop for Runner`.

Machine `f32` arithmetic is embedded as exact rational arithmetic (`ℚ`);
the two rotation helpers whose definitions are inherently trigonometric
(`Rotation3::new` / Rodrigues' axis-angle, and Gram-Schmidt
re-orthonormalization, both living outside this repository) are passed as
explicit function parameters, so every theorem below holds for any
realization of them.
-/

namespace PhyssimViz

/-- 3-component vector (`nalgebra::Vector3<f32>`, components embedded in `ℚ`). -/
structure Vec3 where
  x : ℚ
  y : ℚ
  z : ℚ
  deriving DecidableEq, Repr

/-- 4-component vector (`nalgebra::Vector4<f32>`). -/
structure Vec4 where
  x : ℚ
  y : ℚ
  z : ℚ
  w : ℚ
  deriving DecidableEq, Repr

/-- 3x3 matrix (`nalgebra::Matrix3<f32>`), entry `mRC` = row R, column C. -/
structure Mat3 where
  m00 : ℚ
  m01 : ℚ
  m02 : ℚ
  m10 : ℚ
  m11 : ℚ
  m12 : ℚ
  m20 : ℚ
  m21 : ℚ
  m22 : ℚ
  deriving DecidableEq, Repr

/-- 4x4 matrix (`nalgebra::Matrix4<f32>`), entry `mRC` = row R, column C. -/
structure Mat4 where
  m00 : ℚ
  m01 : ℚ
  m02 : ℚ
  m03 : ℚ
  m10 : ℚ
  m11 : ℚ
  m12 : ℚ
  m13 : ℚ
  m20 : ℚ
  m21 : ℚ
  m22 : ℚ
  m23 : ℚ
  m30 : ℚ
  m31 : ℚ
  m32 : ℚ
  m33 : ℚ
  deriving DecidableEq, Repr

theorem Vec3.ext_iff {a b : Vec3} : a = b ↔ a.x = b.x ∧ a.y = b.y ∧ a.z = b.z := by
  constructor
  · intro h; subst h; exact ⟨rfl, rfl, rfl⟩
  · rintro ⟨h1, h2, h3⟩; cases a; cases b; simp_all

instance : Add Vec3 := ⟨fun a b => ⟨a.x + b.x, a.y + b.y, a.z + b.z⟩⟩

instance : Sub Vec3 := ⟨fun a b => ⟨a.x - b.x, a.y - b.y, a.z - b.z⟩⟩

instance : SMul ℚ Vec3 := ⟨fun c v => ⟨c * v.x, c * v.y, c * v.z⟩⟩

/-- The zero vector (`nalgebra::Vector3::zeros()`). -/
def vec3Zero : Vec3 := ⟨0, 0, 0⟩

/-- Matrix-vector product `M * v`. -/
def Mat3.mulVec (M : Mat3) (v : Vec3) : Vec3 :=
  ⟨M.m00 * v.x + M.m01 * v.y + M.m02 * v.z,
   M.m10 * v.x + M.m11 * v.y + M.m12 * v.z,
   M.m20 * v.x + M.m21 * v.y + M.m22 * v.z⟩

/-- Matrix product `A * B` on 3x3 matrices. -/
def Mat3.mul (A B : Mat3) : Mat3 :=
  ⟨A.m00 * B.m00 + A.m01 * B.m10 + A.m02 * B.m20,
   A.m00 * B.m01 + A.m01 * B.m11 + A.m02 * B.m21,
   A.m00 * B.m02 + A.m01 * B.m12 + A.m02 * B.m22,
   A.m10 * B.m00 + A.m11 * B.m10 + A.m12 * B.m20,
   A.m10 * B.m01 + A.m11 * B.m11 + A.m12 * B.m21,
   A.m10 * B.m02 + A.m11 * B.m12 + A.m12 * B.m22,
   A.m20 * B.m00 + A.m21 * B.m10 + A.m22 * B.m20,
   A.m20 * B.m01 + A.m21 * B.m11 + A.m22 * B.m21,
   A.m20 * B.m02 + A.m21 * B.m12 + A.m22 * B.m22⟩

/-- Transpose of a 3x3 matrix. -/
def Mat3.transpose (A : Mat3) : Mat3 :=
  ⟨A.m00, A.m10, A.m20, A.m01, A.m11, A.m21, A.m02, A.m12, A.m22⟩

/-- The 3x3 identity (`nalgebra::Matrix3::identity()`). -/
def mat3Id : Mat3 := ⟨1, 0, 0, 0, 1, 0, 0, 0, 1⟩

/-- Determinant of a 3x3 matrix given by its nine entries. -/
def det3 (a b c d e f g h i : ℚ) : ℚ :=
  a * (e * i - f * h) - b * (d * i - f * g) + c * (d * h - e * g)

/-- Determinant of a 3x3 matrix. -/
def Mat3.det (A : Mat3) : ℚ :=
  det3 A.m00 A.m01 A.m02 A.m10 A.m11 A.m12 A.m20 A.m21 A.m22

/-- 4x4 matrix product `A * B`. -/
def Mat4.mul (A B : Mat4) : Mat4 :=
  ⟨A.m00 * B.m00 + A.m01 * B.m10 + A.m02 * B.m20 + A.m03 * B.m30,
   A.m00 * B.m01 + A.m01 * B.m11 + A.m02 * B.m21 + A.m03 * B.m31,
   A.m00 * B.m02 + A.m01 * B.m12 + A.m02 * B.m22 + A.m03 * B.m32,
   A.m00 * B.m03 + A.m01 * B.m13 + A.m02 * B.m23 + A.m03 * B.m33,
   A.m10 * B.m00 + A.m11 * B.m10 + A.m12 * B.m20 + A.m13 * B.m30,
   A.m10 * B.m01 + A.m11 * B.m11 + A.m12 * B.m21 + A.m13 * B.m31,
   A.m10 * B.m02 + A.m11 * B.m12 + A.m12 * B.m22 + A.m13 * B.m32,
   A.m10 * B.m03 + A.m11 * B.m13 + A.m12 * B.m23 + A.m13 * B.m33,
   A.m20 * B.m00 + A.m21 * B.m10 + A.m22 * B.m20 + A.m23 * B.m30,
   A.m20 * B.m01 + A.m21 * B.m11 + A.m22 * B.m21 + A.m23 * B.m31,
   A.m20 * B.m02 + A.m21 * B.m12 + A.m22 * B.m22 + A.m23 * B.m32,
   A.m20 * B.m03 + A.m21 * B.m13 + A.m22 * B.m23 + A.m23 * B.m33,
   A.m30 * B.m00 + A.m31 * B.m10 + A.m32 * B.m20 + A.m33 * B.m30,
   A.m30 * B.m01 + A.m31 * B.m11 + A.m32 * B.m21 + A.m33 * B.m31,
   A.m30 * B.m02 + A.m31 * B.m12 + A.m32 * B.m22 + A.m33 * B.m32,
   A.m30 * B.m03 + A.m31 * B.m13 + A.m32 * B.m23 + A.m33 * B.m33⟩

/-- 4x4 matrix-vector product `A * v` on homogeneous vectors. -/
def Mat4.mulVec (A : Mat4) (v : Vec4) : Vec4 :=
  ⟨A.m00 * v.x + A.m01 * v.y + A.m02 * v.z + A.m03 * v.w,
   A.m10 * v.x + A.m11 * v.y + A.m12 * v.z + A.m13 * v.w,
   A.m20 * v.x + A.m21 * v.y + A.m22 * v.z + A.m23 * v.w,
   A.m30 * v.x + A.m31 * v.y + A.m32 * v.z + A.m33 * v.w⟩

/-- Scalar multiple of a 4x4 matrix. -/
def Mat4.smul (c : ℚ) (A : Mat4) : Mat4 :=
  ⟨c * A.m00, c * A.m01, c * A.m02, c * A.m03,
   c * A.m10, c * A.m11, c * A.m12, c * A.m13,
   c * A.m20, c * A.m21, c * A.m22, c * A.m23,
   c * A.m30, c * A.m31, c * A.m32, c * A.m33⟩

/-- The 4x4 identity matrix. -/
def mat4Id : Mat4 := ⟨1, 0, 0, 0, 0, 1, 0, 0, 0, 0, 1, 0, 0, 0, 0, 1⟩

/-- Determinant of a 4x4 matrix (cofactor expansion along the first row). -/
def Mat4.det (A : Mat4) : ℚ :=
  A.m00 * det3 A.m11 A.m12 A.m13 A.m21 A.m22 A.m23 A.m31 A.m32 A.m33
    - A.m01 * det3 A.m10 A.m12 A.m13 A.m20 A.m22 A.m23 A.m30 A.m32 A.m33
    + A.m02 * det3 A.m10 A.m11 A.m13 A.m20 A.m21 A.m23 A.m30 A.m31 A.m33
    - A.m03 * det3 A.m10 A.m11 A.m12 A.m20 A.m21 A.m22 A.m30 A.m31 A.m32

/-- Adjugate (transposed cofactor matrix) of a 4x4 matrix; entry `(r, c)` is
the cofactor `C(c, r)` of `A`. -/
def Mat4.adj (A : Mat4) : Mat4 :=
  ⟨det3 A.m11 A.m12 A.m13 A.m21 A.m22 A.m23 A.m31 A.m32 A.m33,
   -(det3 A.m01 A.m02 A.m03 A.m21 A.m22 A.m23 A.m31 A.m32 A.m33),
   det3 A.m01 A.m02 A.m03 A.m11 A.m12 A.m13 A.m31 A.m32 A.m33,
   -(det3 A.m01 A.m02 A.m03 A.m11 A.m12 A.m13 A.m21 A.m22 A.m23),
   -(det3 A.m10 A.m12 A.m13 A.m20 A.m22 A.m23 A.m30 A.m32 A.m33),
   det3 A.m00 A.m02 A.m03 A.m20 A.m22 A.m23 A.m30 A.m32 A.m33,
   -(det3 A.m00 A.m02 A.m03 A.m10 A.m12 A.m13 A.m30 A.m32 A.m33),
   det3 A.m00 A.m02 A.m03 A.m10 A.m12 A.m13 A.m20 A.m22 A.m23,
   det3 A.m10 A.m11 A.m13 A.m20 A.m21 A.m23 A.m30 A.m31 A.m33,
   -(det3 A.m00 A.m01 A.m03 A.m20 A.m21 A.m23 A.m30 A.m31 A.m33),
   det3 A.m00 A.m01 A.m03 A.m10 A.m11 A.m13 A.m30 A.m31 A.m33,
   -(det3 A.m00 A.m01 A.m03 A.m10 A.m11 A.m13 A.m20 A.m21 A.m23),
   -(det3 A.m10 A.m11 A.m12 A.m20 A.m21 A.m22 A.m30 A.m31 A.m32),
   det3 A.m00 A.m01 A.m02 A.m20 A.m21 A.m22 A.m30 A.m31 A.m32,
   -(det3 A.m00 A.m01 A.m02 A.m10 A.m11 A.m12 A.m30 A.m31 A.m32),
   det3 A.m00 A.m01 A.m02 A.m10 A.m11 A.m12 A.m20 A.m21 A.m22⟩

/-- Exact model of `nalgebra`'s `Matrix4::try_inverse`: the true matrix
inverse when the determinant is nonzero, `none` otherwise. -/
def mat4TryInverse (A : Mat4) : Option Mat4 :=
  if A.det = 0 then none else some (Mat4.smul (1 / A.det) A.adj)

/-- `Rotation3::to_homogeneous()`: embed a 3x3 rotation in a 4x4 matrix. -/
def Mat3.toHomogeneous (R : Mat3) : Mat4 :=
  ⟨R.m00, R.m01, R.m02, 0,
   R.m10, R.m11, R.m12, 0,
   R.m20, R.m21, R.m22, 0,
   0, 0, 0, 1⟩

/-- `Translation3::from(p).to_homogeneous()`: the homogeneous translation
matrix by `p`. -/
def translationHomogeneous (p : Vec3) : Mat4 :=
  ⟨1, 0, 0, p.x,
   0, 1, 0, p.y,
   0, 0, 1, p.z,
   0, 0, 0, 1⟩

/-- `.rows(0, 3)` of a homogeneous 4-vector: its first three components. -/
def Vec4.firstThree (v : Vec4) : Vec3 := ⟨v.x, v.y, v.z⟩

/-- `keys_pressed` struct of `src/lib.rs` (`KeysPressed`): the 12 held-key
slots. -/
structure KeysPressed where
  w : Bool
  s : Bool
  a : Bool
  d : Bool
  q : Bool
  e : Bool
  i : Bool
  k : Bool
  j : Bool
  l : Bool
  u : Bool
  o : Bool
  deriving DecidableEq, Repr

/-- `KeysPressed::new()`: all slots released. -/
def KeysPressed.new : KeysPressed :=
  ⟨false, false, false, false, false, false, false, false, false, false, false, false⟩

/-- `physsim::RigidBody<f32>` as constructed and read by `src/lib.rs`. -/
structure RigidBody where
  pos : Vec3
  lin_vel : Vec3
  rot_mat : Mat3
  ang_mom : Vec3
  inv_ine : Mat3
  deriving DecidableEq, Repr

/-- `RunnerState` of `src/lib.rs`. -/
structure RunnerState where
  counter : ℤ
  rigid_body : RigidBody
  wireframe : Bool
  keys_pressed : KeysPressed
  camera_pos : Vec3
  camera_rot : Mat3
  deriving DecidableEq, Repr

/-- `RunnerState::new()` of `src/lib.rs`. -/
def RunnerState.new : RunnerState :=
  { counter := 0
    rigid_body :=
      { pos := ⟨0, 0, 0⟩
        lin_vel := ⟨0.1, 0, 0⟩
        rot_mat := mat3Id
        ang_mom := ⟨0.5, 0, 0⟩
        inv_ine := ⟨1, 0, 0, 0, 1, 0, 0, 0, 1⟩ }
    wireframe := false
    keys_pressed := KeysPressed.new
    camera_pos := vec3Zero
    camera_rot := mat3Id }

/-- The `keydown` closure of `Runner::new` (src/lib.rs lines 245-270):
dispatch on the event's key-code string. -/
def keydown (code : String) (st : RunnerState) : RunnerState :=
  if code = "KeyV" then { st with wireframe := !st.wireframe }
  else if code = "KeyW" then { st with keys_pressed := { st.keys_pressed with w := true } }
  else if code = "KeyS" then { st with keys_pressed := { st.keys_pressed with s := true } }
  else if code = "KeyA" then { st with keys_pressed := { st.keys_pressed with a := true } }
  else if code = "KeyD" then { st with keys_pressed := { st.keys_pressed with d := true } }
  else if code = "KeyQ" then { st with keys_pressed := { st.keys_pressed with q := true } }
  else if code = "KeyE" then { st with keys_pressed := { st.keys_pressed with e := true } }
  else if code = "KeyI" then { st with keys_pressed := { st.keys_pressed with i := true } }
  else if code = "KeyK" then { st with keys_pressed := { st.keys_pressed with k := true } }
  else if code = "KeyJ" then { st with keys_pressed := { st.keys_pressed with j := true } }
  else if code = "KeyL" then { st with keys_pressed := { st.keys_pressed with l := true } }
  else if code = "KeyU" then { st with keys_pressed := { st.keys_pressed with u := true } }
  else if code = "KeyO" then { st with keys_pressed := { st.keys_pressed with o := true } }
  else st

/-- The `keyup` closure of `Runner::new` (src/lib.rs lines 274-299); note
there is no `"KeyV"` arm. -/
def keyup (code : String) (st : RunnerState) : RunnerState :=
  if code = "KeyW" then { st with keys_pressed := { st.keys_pressed with w := false } }
  else if code = "KeyS" then { st with keys_pressed := { st.keys_pressed with s := false } }
  else if code = "KeyA" then { st with keys_pressed := { st.keys_pressed with a := false } }
  else if code = "KeyD" then { st with keys_pressed := { st.keys_pressed with d := false } }
  else if code = "KeyQ" then { st with keys_pressed := { st.keys_pressed with q := false } }
  else if code = "KeyE" then { st with keys_pressed := { st.keys_pressed with e := false } }
  else if code = "KeyI" then { st with keys_pressed := { st.keys_pressed with i := false } }
  else if code = "KeyK" then { st with keys_pressed := { st.keys_pressed with k := false } }
  else if code = "KeyJ" then { st with keys_pressed := { st.keys_pressed with j := false } }
  else if code = "KeyL" then { st with keys_pressed := { st.keys_pressed with l := false } }
  else if code = "KeyU" then { st with keys_pressed := { st.keys_pressed with u := false } }
  else if code = "KeyO" then { st with keys_pressed := { st.keys_pressed with o := false } }
  else st

/-- `PHYSICS_INTERVAL` constant of `src/lib.rs` (milliseconds). -/
def PHYSICS_INTERVAL : ℚ := 10

/-- `DRAW_INTERVAL` constant of `src/lib.rs` (milliseconds). -/
def DRAW_INTERVAL : ℚ := 100

/-- Wrap an integer into two's-complement `i32` range; models the `+= 1`
on the `i32` field `counter` in a release (wrapping) build. -/
def wrap32 (n : ℤ) : ℤ := (n + 2 ^ 31) % 2 ^ 32 - 2 ^ 31

/-- The camera-translation expression of `physics_step`:
`(camera_rot.to_homogeneous() * Vector4::new(dx, dy, dz, 1.0)).rows(0, 3)`. -/
def camTranslationDelta (R : Mat3) (d : Vec3) : Vec3 :=
  Vec4.firstThree (Mat4.mulVec R.toHomogeneous ⟨d.x, d.y, d.z, 1⟩)

/-- Modelled from the spec: `RigidBody::step_sim` lives in the external
`physsim` crate, whose sources are not part of this repository; only its
call sites and field uses are in `src/lib.rs`. Following spec section 4.1:
world inverse inertia `R * I_inv * R^T`, angular velocity `omega` from it
and the angular momentum, `pos` advanced by `dt * lin_vel`, rotation
updated by the axis-angle rotation of `omega * dt` and re-orthonormalized,
`lin_vel` and `ang_mom` untouched. The axis-angle constructor (Rodrigues)
and the Gram-Schmidt re-orthonormalization are trigonometric or involve
square roots, so they are taken as arbitrary function parameters `axisAngle`
and `orthonorm`. -/
def stepSim (axisAngle : Vec3 → Mat3) (orthonorm : Mat3 → Mat3) (dt : ℚ)
    (rb : RigidBody) : RigidBody :=
  let invIneWorld := (rb.rot_mat.mul rb.inv_ine).mul rb.rot_mat.transpose
  let omega := invIneWorld.mulVec rb.ang_mom
  { rb with
    pos := rb.pos + dt • rb.lin_vel
    rot_mat := orthonorm ((axisAngle (dt • omega)).mul rb.rot_mat) }

/-- `cam_linear_speed` of `physics_step`: `0.001 * PHYSICS_INTERVAL`. -/
def camLinearSpeed : ℚ := 0.001 * PHYSICS_INTERVAL

/-- `cam_angular_sleep` of `physics_step`: `0.001 * PHYSICS_INTERVAL`. -/
def camAngularSpeed : ℚ := 0.001 * PHYSICS_INTERVAL

/-- The `keys_pressed.w` block of `physics_step` (forward). -/
def camKeyW (st : RunnerState) : RunnerState :=
  if st.keys_pressed.w then
    { st with camera_pos :=
        st.camera_pos + camTranslationDelta st.camera_rot ⟨0, 0, -camLinearSpeed⟩ }
  else st

/-- The `keys_pressed.s` block of `physics_step` (back). -/
def camKeyS (st : RunnerState) : RunnerState :=
  if st.keys_pressed.s then
    { st with camera_pos :=
        st.camera_pos + camTranslationDelta st.camera_rot ⟨0, 0, camLinearSpeed⟩ }
  else st

/-- The `keys_pressed.a` block of `physics_step` (strafe left). -/
def camKeyA (st : RunnerState) : RunnerState :=
  if st.keys_pressed.a then
    { st with camera_pos :=
        st.camera_pos + camTranslationDelta st.camera_rot ⟨-camLinearSpeed, 0, 0⟩ }
  else st

/-- The `keys_pressed.d` block of `physics_step` (strafe right). -/
def camKeyD (st : RunnerState) : RunnerState :=
  if st.keys_pressed.d then
    { st with camera_pos :=
        st.camera_pos + camTranslationDelta st.camera_rot ⟨camLinearSpeed, 0, 0⟩ }
  else st

/-- The `keys_pressed.q` block of `physics_step` (descend). -/
def camKeyQ (st : RunnerState) : RunnerState :=
  if st.keys_pressed.q then
    { st with camera_pos :=
        st.camera_pos + camTranslationDelta st.camera_rot ⟨0, -camLinearSpeed, 0⟩ }
  else st

/-- The `keys_pressed.e` block of `physics_step` (ascend). -/
def camKeyE (st : RunnerState) : RunnerState :=
  if st.keys_pressed.e then
    { st with camera_pos :=
        st.camera_pos + camTranslationDelta st.camera_rot ⟨0, camLinearSpeed, 0⟩ }
  else st

/-- The `keys_pressed.i` block of `physics_step` (pitch); `Rotation3::new`
(axis-angle) is the parameter `axisAngle`. -/
def camKeyI (axisAngle : Vec3 → Mat3) (st : RunnerState) : RunnerState :=
  if st.keys_pressed.i then
    { st with camera_rot := st.camera_rot.mul (axisAngle ⟨camAngularSpeed, 0, 0⟩) }
  else st

/-- The `keys_pressed.k` block of `physics_step` (pitch, other sign). -/
def camKeyK (axisAngle : Vec3 → Mat3) (st : RunnerState) : RunnerState :=
  if st.keys_pressed.k then
    { st with camera_rot := st.camera_rot.mul (axisAngle ⟨-camAngularSpeed, 0, 0⟩) }
  else st

/-- The `keys_pressed.j` block of `physics_step` (yaw). -/
def camKeyJ (axisAngle : Vec3 → Mat3) (st : RunnerState) : RunnerState :=
  if st.keys_pressed.j then
    { st with camera_rot := st.camera_rot.mul (axisAngle ⟨0, camAngularSpeed, 0⟩) }
  else st

/-- The `keys_pressed.l` block of `physics_step` (yaw, other sign). -/
def camKeyL (axisAngle : Vec3 → Mat3) (st : RunnerState) : RunnerState :=
  if st.keys_pressed.l then
    { st with camera_rot := st.camera_rot.mul (axisAngle ⟨0, -camAngularSpeed, 0⟩) }
  else st

/-- The `keys_pressed.u` block of `physics_step` (roll). -/
def camKeyU (axisAngle : Vec3 → Mat3) (st : RunnerState) : RunnerState :=
  if st.keys_pressed.u then
    { st with camera_rot := st.camera_rot.mul (axisAngle ⟨0, 0, camAngularSpeed⟩) }
  else st

/-- The `keys_pressed.o` block of `physics_step` (roll, other sign). -/
def camKeyO (axisAngle : Vec3 → Mat3) (st : RunnerState) : RunnerState :=
  if st.keys_pressed.o then
    { st with camera_rot := st.camera_rot.mul (axisAngle ⟨0, 0, -camAngularSpeed⟩) }
  else st

/-- The camera-movement prefix of `physics_step` (src/lib.rs lines 753-810):
the twelve key blocks in program order. -/
def cameraStep (axisAngle : Vec3 → Mat3) (st : RunnerState) : RunnerState :=
  camKeyO axisAngle (camKeyU axisAngle (camKeyL axisAngle (camKeyJ axisAngle
    (camKeyK axisAngle (camKeyI axisAngle
      (camKeyE (camKeyQ (camKeyD (camKeyA (camKeyS (camKeyW st)))))))))))

/-- `physics_step` of `src/lib.rs` (lines 750-814): camera movement blocks
in order, then `counter += 1` (wrapping `i32`), then
`rigid_body.step_sim(PHYSICS_INTERVAL / 1000.0)`. -/
def physicsStep (axisAngle : Vec3 → Mat3) (orthonorm : Mat3 → Mat3)
    (st : RunnerState) : RunnerState :=
  let st1 := cameraStep axisAngle st
  let st2 := { st1 with counter := wrap32 (st1.counter + 1) }
  { st2 with
    rigid_body := stepSim axisAngle orthonorm (PHYSICS_INTERVAL / 1000) st2.rigid_body }

/-- The inner `add_vert` of `cuboid_to_vertices`: push `x`, `y`, `z`. -/
def addVert (v : Vec3) : List ℚ := [v.x, v.y, v.z]

/-- `cuboid_to_vertices` of `src/lib.rs` (lines 372-501), as the list of
floats it appends to the caller's vertex vector. -/
def cuboidToVertices (rb : RigidBody) (wireframe : Bool) : List ℚ :=
  let v1 := rb.rot_mat.mulVec ⟨-0.5, -0.5, -0.5⟩ + rb.pos
  let v2 := rb.rot_mat.mulVec ⟨-0.5, -0.5, 0.5⟩ + rb.pos
  let v3 := rb.rot_mat.mulVec ⟨-0.5, 0.5, -0.5⟩ + rb.pos
  let v4 := rb.rot_mat.mulVec ⟨-0.5, 0.5, 0.5⟩ + rb.pos
  let v5 := rb.rot_mat.mulVec ⟨0.5, -0.5, -0.5⟩ + rb.pos
  let v6 := rb.rot_mat.mulVec ⟨0.5, -0.5, 0.5⟩ + rb.pos
  let v7 := rb.rot_mat.mulVec ⟨0.5, 0.5, -0.5⟩ + rb.pos
  let v8 := rb.rot_mat.mulVec ⟨0.5, 0.5, 0.5⟩ + rb.pos
  if wireframe then
    addVert v1 ++ addVert v2
      ++ addVert v1 ++ addVert v3
      ++ addVert v3 ++ addVert v4
      ++ addVert v2 ++ addVert v4
      ++ addVert v5 ++ addVert v6
      ++ addVert v5 ++ addVert v7
      ++ addVert v7 ++ addVert v8
      ++ addVert v6 ++ addVert v8
      ++ addVert v1 ++ addVert v5
      ++ addVert v3 ++ addVert v7
      ++ addVert v4 ++ addVert v8
      ++ addVert v2 ++ addVert v6
  else
    addVert v1 ++ addVert v2 ++ addVert v3
      ++ addVert v2 ++ addVert v3 ++ addVert v4
      ++ addVert v1 ++ addVert v3 ++ addVert v7
      ++ addVert v1 ++ addVert v5 ++ addVert v7
      ++ addVert v1 ++ addVert v2 ++ addVert v6
      ++ addVert v1 ++ addVert v5 ++ addVert v6
      ++ addVert v5 ++ addVert v6 ++ addVert v7
      ++ addVert v6 ++ addVert v7 ++ addVert v8
      ++ addVert v2 ++ addVert v4 ++ addVert v8
      ++ addVert v2 ++ addVert v6 ++ addVert v8
      ++ addVert v3 ++ addVert v4 ++ addVert v8
      ++ addVert v3 ++ addVert v7 ++ addVert v8

/-- The inner `add_vert` of `vector_to_vertices`: push `x`, `y`, `z`, and
the three color components when a color is present. -/
def addVertColored (v : Vec3) (color : Option (ℚ × ℚ × ℚ)) : List ℚ :=
  match color with
  | some c => [v.x, v.y, v.z, c.1, c.2.1, c.2.2]
  | none => [v.x, v.y, v.z]

/-- `vector_to_vertices` of `src/lib.rs` (lines 503-566): shaft line from
`pos` to `pos + v`, then the six tip legs in order `+x, -x, +y, -y, +z, -z`. -/
def vectorToVertices (pos v : Vec3) (color : Option (ℚ × ℚ × ℚ)) (tip_size : ℚ) :
    List ℚ :=
  addVertColored pos color
    ++ addVertColored (pos + v) color
    ++ addVertColored (pos + v) color
    ++ addVertColored (pos + v + ⟨tip_size, 0, 0⟩) color
    ++ addVertColored (pos + v) color
    ++ addVertColored (pos + v + ⟨-tip_size, 0, 0⟩) color
    ++ addVertColored (pos + v) color
    ++ addVertColored (pos + v + ⟨0, tip_size, 0⟩) color
    ++ addVertColored (pos + v) color
    ++ addVertColored (pos + v + ⟨0, -tip_size, 0⟩) color
    ++ addVertColored (pos + v) color
    ++ addVertColored (pos + v + ⟨0, 0, tip_size⟩) color
    ++ addVertColored (pos + v) color
    ++ addVertColored (pos + v + ⟨0, 0, -tip_size⟩) color

/-- The two GLSL programs of `src/lib.rs`. -/
inductive ProgKind where
  | plain
  | colored
  deriving DecidableEq, Repr

/-- WebGL primitive modes used by `draw`. -/
inductive DrawMode where
  | lines
  | triangles
  deriving DecidableEq, Repr

/-- Observable GPU operations issued by `draw`, in issue order. -/
inductive GpuCmd where
  | useProgram (prog : ProgKind)
  | bindVertexArray (prog : ProgKind)
  | setUniformProjection (prog : ProgKind) (m : Mat4)
  | bufferData (data : List ℚ)
  | clearColor (r g b a2 : ℚ)
  | clear
  | drawArrays (mode : DrawMode) (first count : ℕ)
  deriving DecidableEq, Repr

/-- The `aspect` constant of `draw`. -/
def aspectRatioValue : ℚ := 1.333

/-- The `z_near` constant of `draw`. -/
def zNearValue : ℚ := 0.01

/-- The `z_far` constant of `draw`. -/
def zFarValue : ℚ := 1000

/-- Modelled from `nalgebra::Perspective3::new(aspect, fovy, znear, zfar)`
(external crate): the right-handed OpenGL perspective matrix with depth
mapped to `[-1, 1]`. Since `tan` is transcendental, the value
`tan(fovy / 2)` is the explicit parameter `thf`. -/
def perspectiveMatrix (aspect znear zfar thf : ℚ) : Mat4 :=
  ⟨1 / (aspect * thf), 0, 0, 0,
   0, 1 / thf, 0, 0,
   0, 0, -(zfar + znear) / (zfar - znear), -(2 * zfar * znear) / (zfar - znear),
   0, 0, -1, 0⟩

/-- The camera transform inverted by `draw`:
`translation.to_homogeneous() * camera_rot.to_homogeneous()`. -/
def cameraTransform (p : Vec3) (R : Mat3) : Mat4 :=
  Mat4.mul (translationHomogeneous p) R.toHomogeneous

/-- `draw` of `src/lib.rs` (lines 568-748), as the sequence of GPU commands
it issues; `none` when `try_inverse` fails (the `.unwrap()` panics). `thf`
stands for `tan(fovy / 2)` with `fovy = 75 * pi / 180` (see
`perspectiveMatrix`). -/
def drawTrace (thf : ℚ) (st : RunnerState) : Option (List GpuCmd) :=
  (mat4TryInverse (cameraTransform st.camera_pos st.camera_rot)).map fun viewInv =>
    let projMat := Mat4.mul (perspectiveMatrix aspectRatioValue zNearValue zFarValue thf) viewInv
    let verticesPlain := cuboidToVertices st.rigid_body st.wireframe
    let verticesColored :=
      vectorToVertices vec3Zero ⟨5, 0, 0⟩ (some (1, 0, 0)) 0.5
        ++ vectorToVertices vec3Zero ⟨0, 5, 0⟩ (some (0, 1, 0)) 0.5
        ++ vectorToVertices vec3Zero ⟨0, 0, 5⟩ (some (0, 0, 1)) 0.5
        ++ vectorToVertices st.rigid_body.pos st.rigid_body.lin_vel (some (1, 1, 0)) 0.1
        ++ vectorToVertices st.rigid_body.pos st.rigid_body.ang_mom (some (0, 1, 1)) 0.1
    [GpuCmd.useProgram ProgKind.plain,
      GpuCmd.bindVertexArray ProgKind.plain,
      GpuCmd.setUniformProjection ProgKind.plain projMat,
      GpuCmd.bufferData verticesPlain,
      GpuCmd.clearColor 0 0 0 1,
      GpuCmd.clear,
      GpuCmd.drawArrays (if st.wireframe then DrawMode.lines else DrawMode.triangles) 0
        (verticesPlain.length / 3),
      GpuCmd.useProgram ProgKind.colored,
      GpuCmd.bindVertexArray ProgKind.colored,
      GpuCmd.setUniformProjection ProgKind.colored projMat,
      GpuCmd.bufferData verticesColored,
      GpuCmd.drawArrays DrawMode.lines 0 (verticesColored.length / 6)]

/-- The host-side registrations made by `Runner::new`: the two interval
timers and the two key listeners. -/
structure HostRegistrations where
  draw_timer : Bool
  physics_timer : Bool
  keydown_listener : Bool
  keyup_listener : Bool
  deriving DecidableEq, Repr

/-- State of the host right after `Runner::new` succeeds: both timers set,
both listeners added. -/
def runnerRegistrations : HostRegistrations := ⟨true, true, true, true⟩

/-- `Drop for Runner` (src/lib.rs lines 312-320): it calls
`clear_interval_with_handle(self.draw_interval_token)` and nothing else. -/
def dropRunner (h : HostRegistrations) : HostRegistrations :=
  { h with draw_timer := false }

theorem camKeyW_rigid_body (st : RunnerState) : (camKeyW st).rigid_body = st.rigid_body := by
  unfold camKeyW; split <;> rfl

theorem camKeyS_rigid_body (st : RunnerState) : (camKeyS st).rigid_body = st.rigid_body := by
  unfold camKeyS; split <;> rfl

theorem camKeyA_rigid_body (st : RunnerState) : (camKeyA st).rigid_body = st.rigid_body := by
  unfold camKeyA; split <;> rfl

theorem camKeyD_rigid_body (st : RunnerState) : (camKeyD st).rigid_body = st.rigid_body := by
  unfold camKeyD; split <;> rfl

theorem camKeyQ_rigid_body (st : RunnerState) : (camKeyQ st).rigid_body = st.rigid_body := by
  unfold camKeyQ; split <;> rfl

theorem camKeyE_rigid_body (st : RunnerState) : (camKeyE st).rigid_body = st.rigid_body := by
  unfold camKeyE; split <;> rfl

theorem camKeyI_rigid_body (axA : Vec3 → Mat3) (st : RunnerState) :
    (camKeyI axA st).rigid_body = st.rigid_body := by
  unfold camKeyI; split <;> rfl

theorem camKeyK_rigid_body (axA : Vec3 → Mat3) (st : RunnerState) :
    (camKeyK axA st).rigid_body = st.rigid_body := by
  unfold camKeyK; split <;> rfl

theorem camKeyJ_rigid_body (axA : Vec3 → Mat3) (st : RunnerState) :
    (camKeyJ axA st).rigid_body = st.rigid_body := by
  unfold camKeyJ; split <;> rfl

theorem camKeyL_rigid_body (axA : Vec3 → Mat3) (st : RunnerState) :
    (camKeyL axA st).rigid_body = st.rigid_body := by
  unfold camKeyL; split <;> rfl

theorem camKeyU_rigid_body (axA : Vec3 → Mat3) (st : RunnerState) :
    (camKeyU axA st).rigid_body = st.rigid_body := by
  unfold camKeyU; split <;> rfl

theorem camKeyO_rigid_body (axA : Vec3 → Mat3) (st : RunnerState) :
    (camKeyO axA st).rigid_body = st.rigid_body := by
  unfold camKeyO; split <;> rfl

theorem cameraStep_rigid_body (axA : Vec3 → Mat3) (st : RunnerState) :
    (cameraStep axA st).rigid_body = st.rigid_body := by
  simp [cameraStep, camKeyO_rigid_body, camKeyU_rigid_body, camKeyL_rigid_body,
    camKeyJ_rigid_body, camKeyK_rigid_body, camKeyI_rigid_body, camKeyE_rigid_body,
    camKeyQ_rigid_body, camKeyD_rigid_body, camKeyA_rigid_body, camKeyS_rigid_body,
    camKeyW_rigid_body]

theorem stepSim_ang_mom (axA : Vec3 → Mat3) (orth : Mat3 → Mat3) (dt : ℚ) (rb : RigidBody) :
    (stepSim axA orth dt rb).ang_mom = rb.ang_mom := rfl

theorem stepSim_lin_vel (axA : Vec3 → Mat3) (orth : Mat3 → Mat3) (dt : ℚ) (rb : RigidBody) :
    (stepSim axA orth dt rb).lin_vel = rb.lin_vel := rfl

theorem physicsStep_ang_mom (axA : Vec3 → Mat3) (orth : Mat3 → Mat3) (st : RunnerState) :
    (physicsStep axA orth st).rigid_body.ang_mom = st.rigid_body.ang_mom := by
  show (stepSim axA orth (PHYSICS_INTERVAL / 1000) (cameraStep axA st).rigid_body).ang_mom
      = st.rigid_body.ang_mom
  rw [stepSim_ang_mom, cameraStep_rigid_body]

theorem physicsStep_lin_vel (axA : Vec3 → Mat3) (orth : Mat3 → Mat3) (st : RunnerState) :
    (physicsStep axA orth st).rigid_body.lin_vel = st.rigid_body.lin_vel := by
  show (stepSim axA orth (PHYSICS_INTERVAL / 1000) (cameraStep axA st).rigid_body).lin_vel
      = st.rigid_body.lin_vel
  rw [stepSim_lin_vel, cameraStep_rigid_body]

/-- C1: for every rigid-body state and every `dt`, `step_sim(dt)` leaves
`ang_mom` and `lin_vel` identical to their values before the call, and this
conservation also holds across any number of consecutive physics ticks (the
ticks call `step_sim(PHYSICS_INTERVAL / 1000)`); the statement is uniform in
the axis-angle and re-orthonormalization helpers. -/
theorem step_sim_conserves_momenta (axA : Vec3 → Mat3) (orth : Mat3 → Mat3) :
    (∀ (dt : ℚ) (rb : RigidBody),
      (stepSim axA orth dt rb).ang_mom = rb.ang_mom ∧
      (stepSim axA orth dt rb).lin_vel = rb.lin_vel) ∧
    (∀ (n : ℕ) (st : RunnerState),
      ((physicsStep axA orth)^[n] st).rigid_body.ang_mom = st.rigid_body.ang_mom ∧
      ((physicsStep axA orth)^[n] st).rigid_body.lin_vel = st.rigid_body.lin_vel) := by
  refine ⟨fun dt rb => ⟨stepSim_ang_mom axA orth dt rb, stepSim_lin_vel axA orth dt rb⟩, ?_⟩
  intro n
  induction n with
  | zero => intro st; simp
  | succ m ih =>
    intro st
    rw [Function.iterate_succ_apply]
    exact ⟨by rw [(ih (physicsStep axA orth st)).1, physicsStep_ang_mom],
           by rw [(ih (physicsStep axA orth st)).2, physicsStep_lin_vel]⟩

/-- C7: a `"KeyV"` press toggles `wireframe` exactly once, a second press
restores the original value, and a `"KeyV"` press leaves every `KeysPressed`
slot untouched. -/
theorem keyv_toggle_involution (st : RunnerState) :
    (keydown "KeyV" st).wireframe = !st.wireframe ∧
    (keydown "KeyV" (keydown "KeyV" st)).wireframe = st.wireframe ∧
    (keydown "KeyV" st).keys_pressed = st.keys_pressed := by
  refine ⟨?_, ?_, ?_⟩ <;> simp [keydown]

/-- C3 (code bug): `Drop for Runner` only cancels the draw-interval timer;
after dropping a freshly constructed `Runner` the physics-interval timer and
both key listeners remain registered with the host, contradicting the
claimed full cancellation. -/
theorem drop_runner_leaves_registrations :
    (dropRunner runnerRegistrations).draw_timer = false ∧
    (dropRunner runnerRegistrations).physics_timer = true ∧
    (dropRunner runnerRegistrations).keydown_listener = true ∧
    (dropRunner runnerRegistrations).keyup_listener = true := by
  decide

/-- Spec-side corner emission: the three floats of the world-space corner
`rot_mat * (sx, sy, sz) + pos` of the unit cube. -/
def cornerFloats (rb : RigidBody) (sx sy sz : ℚ) : List ℚ :=
  addVert (rb.rot_mat.mulVec ⟨sx, sy, sz⟩ + rb.pos)

/-- C2: for every pose, solid emission appends exactly 108 floats (36
vertices) forming the twelve pinned triangles F1..F12, and wireframe
emission appends exactly 72 floats (24 vertices) forming the twelve pinned
edges E1..E12, over the corners `v1..v8 = rot * (±0.5, ±0.5, ±0.5) + pos`
enumerated in the sign-pattern order
`(---, --+, -+-, -++, +--, +-+, ++-, +++)`. -/
theorem cuboid_to_vertices_pinned (rb : RigidBody) :
    (cuboidToVertices rb false).length = 108 ∧
    (cuboidToVertices rb true).length = 72 ∧
    cuboidToVertices rb false =
      cornerFloats rb (-0.5) (-0.5) (-0.5) ++ cornerFloats rb (-0.5) (-0.5) 0.5
          ++ cornerFloats rb (-0.5) 0.5 (-0.5)
        ++ cornerFloats rb (-0.5) (-0.5) 0.5 ++ cornerFloats rb (-0.5) 0.5 (-0.5)
          ++ cornerFloats rb (-0.5) 0.5 0.5
        ++ cornerFloats rb (-0.5) (-0.5) (-0.5) ++ cornerFloats rb (-0.5) 0.5 (-0.5)
          ++ cornerFloats rb 0.5 0.5 (-0.5)
        ++ cornerFloats rb (-0.5) (-0.5) (-0.5) ++ cornerFloats rb 0.5 (-0.5) (-0.5)
          ++ cornerFloats rb 0.5 0.5 (-0.5)
        ++ cornerFloats rb (-0.5) (-0.5) (-0.5) ++ cornerFloats rb (-0.5) (-0.5) 0.5
          ++ cornerFloats rb 0.5 (-0.5) 0.5
        ++ cornerFloats rb (-0.5) (-0.5) (-0.5) ++ cornerFloats rb 0.5 (-0.5) (-0.5)
          ++ cornerFloats rb 0.5 (-0.5) 0.5
        ++ cornerFloats rb 0.5 (-0.5) (-0.5) ++ cornerFloats rb 0.5 (-0.5) 0.5
          ++ cornerFloats rb 0.5 0.5 (-0.5)
        ++ cornerFloats rb 0.5 (-0.5) 0.5 ++ cornerFloats rb 0.5 0.5 (-0.5)
          ++ cornerFloats rb 0.5 0.5 0.5
        ++ cornerFloats rb (-0.5) (-0.5) 0.5 ++ cornerFloats rb (-0.5) 0.5 0.5
          ++ cornerFloats rb 0.5 0.5 0.5
        ++ cornerFloats rb (-0.5) (-0.5) 0.5 ++ cornerFloats rb 0.5 (-0.5) 0.5
          ++ cornerFloats rb 0.5 0.5 0.5
        ++ cornerFloats rb (-0.5) 0.5 (-0.5) ++ cornerFloats rb (-0.5) 0.5 0.5
          ++ cornerFloats rb 0.5 0.5 0.5
        ++ cornerFloats rb (-0.5) 0.5 (-0.5) ++ cornerFloats rb 0.5 0.5 (-0.5)
          ++ cornerFloats rb 0.5 0.5 0.5 ∧
    cuboidToVertices rb true =
      cornerFloats rb (-0.5) (-0.5) (-0.5) ++ cornerFloats rb (-0.5) (-0.5) 0.5
        ++ cornerFloats rb (-0.5) (-0.5) (-0.5) ++ cornerFloats rb (-0.5) 0.5 (-0.5)
        ++ cornerFloats rb (-0.5) 0.5 (-0.5) ++ cornerFloats rb (-0.5) 0.5 0.5
        ++ cornerFloats rb (-0.5) (-0.5) 0.5 ++ cornerFloats rb (-0.5) 0.5 0.5
        ++ cornerFloats rb 0.5 (-0.5) (-0.5) ++ cornerFloats rb 0.5 (-0.5) 0.5
        ++ cornerFloats rb 0.5 (-0.5) (-0.5) ++ cornerFloats rb 0.5 0.5 (-0.5)
        ++ cornerFloats rb 0.5 0.5 (-0.5) ++ cornerFloats rb 0.5 0.5 0.5
        ++ cornerFloats rb 0.5 (-0.5) 0.5 ++ cornerFloats rb 0.5 0.5 0.5
        ++ cornerFloats rb (-0.5) (-0.5) (-0.5) ++ cornerFloats rb 0.5 (-0.5) (-0.5)
        ++ cornerFloats rb (-0.5) 0.5 (-0.5) ++ cornerFloats rb 0.5 0.5 (-0.5)
        ++ cornerFloats rb (-0.5) 0.5 0.5 ++ cornerFloats rb 0.5 0.5 0.5
        ++ cornerFloats rb (-0.5) (-0.5) 0.5 ++ cornerFloats rb 0.5 (-0.5) 0.5 := by
  refine ⟨?_, ?_, rfl, rfl⟩ <;> simp [cuboidToVertices, addVert]

/-- The world-space x-axis unit vector. -/
def unitX : Vec3 := ⟨1, 0, 0⟩

/-- The world-space y-axis unit vector. -/
def unitY : Vec3 := ⟨0, 1, 0⟩

/-- The world-space z-axis unit vector. -/
def unitZ : Vec3 := ⟨0, 0, 1⟩

theorem add_mk_eq_add_smul_unitX (a : Vec3) (t : ℚ) :
    a + (⟨t, 0, 0⟩ : Vec3) = a + t • unitX := by
  show Vec3.mk _ _ _ = Vec3.mk _ _ _
  simp [unitX, HSMul.hSMul, SMul.smul]

theorem add_mk_eq_sub_smul_unitX (a : Vec3) (t : ℚ) :
    a + (⟨-t, 0, 0⟩ : Vec3) = a - t • unitX := by
  show Vec3.mk _ _ _ = Vec3.mk _ _ _
  simp [unitX, HSMul.hSMul, SMul.smul, sub_eq_add_neg]

theorem add_mk_eq_add_smul_unitY (a : Vec3) (t : ℚ) :
    a + (⟨0, t, 0⟩ : Vec3) = a + t • unitY := by
  show Vec3.mk _ _ _ = Vec3.mk _ _ _
  simp [unitY, HSMul.hSMul, SMul.smul]

theorem add_mk_eq_sub_smul_unitY (a : Vec3) (t : ℚ) :
    a + (⟨0, -t, 0⟩ : Vec3) = a - t • unitY := by
  show Vec3.mk _ _ _ = Vec3.mk _ _ _
  simp [unitY, HSMul.hSMul, SMul.smul, sub_eq_add_neg]

theorem add_mk_eq_add_smul_unitZ (a : Vec3) (t : ℚ) :
    a + (⟨0, 0, t⟩ : Vec3) = a + t • unitZ := by
  show Vec3.mk _ _ _ = Vec3.mk _ _ _
  simp [unitZ, HSMul.hSMul, SMul.smul]

theorem add_mk_eq_sub_smul_unitZ (a : Vec3) (t : ℚ) :
    a + (⟨0, 0, -t⟩ : Vec3) = a - t • unitZ := by
  show Vec3.mk _ _ _ = Vec3.mk _ _ _
  simp [unitZ, HSMul.hSMul, SMul.smul, sub_eq_add_neg]

/-- C4: one colored arrow emission appends exactly 84 floats
(`7 lines * 2 vertices * 6 floats`): the shaft `p -> p + v` followed by six
tip legs from `p + v` to `p + v ± tip_size * e` over the unit axes `e`;
without a color, every vertex is 3 floats (42 floats in all), and the
format is uniform within one call. -/
theorem vector_to_vertices_arrow (p v : Vec3) (c : ℚ × ℚ × ℚ) (t : ℚ) :
    (vectorToVertices p v (some c) t).length = 84 ∧
    (vectorToVertices p v none t).length = 42 ∧
    vectorToVertices p v (some c) t =
      addVertColored p (some c) ++ addVertColored (p + v) (some c)
        ++ addVertColored (p + v) (some c) ++ addVertColored (p + v + t • unitX) (some c)
        ++ addVertColored (p + v) (some c) ++ addVertColored (p + v - t • unitX) (some c)
        ++ addVertColored (p + v) (some c) ++ addVertColored (p + v + t • unitY) (some c)
        ++ addVertColored (p + v) (some c) ++ addVertColored (p + v - t • unitY) (some c)
        ++ addVertColored (p + v) (some c) ++ addVertColored (p + v + t • unitZ) (some c)
        ++ addVertColored (p + v) (some c) ++ addVertColored (p + v - t • unitZ) (some c) ∧
    (∀ w : Vec3, (addVertColored w (some c)).length = 6) ∧
    (∀ w : Vec3, (addVertColored w none).length = 3) := by
  refine ⟨?_, ?_, ?_, fun w => rfl, fun w => rfl⟩
  · simp [vectorToVertices, addVertColored]
  · simp [vectorToVertices, addVertColored]
  · rw [vectorToVertices, add_mk_eq_add_smul_unitX, add_mk_eq_sub_smul_unitX,
      add_mk_eq_add_smul_unitY, add_mk_eq_sub_smul_unitY,
      add_mk_eq_add_smul_unitZ, add_mk_eq_sub_smul_unitZ]

/-- C10: a keydown whose code is none of the 13 recognized codes leaves the
whole `RunnerState` unchanged; a movement keydown sets exactly its slot to
`true` and changes nothing else; a keyup changes at most its one slot to
`false` (unmatched codes, including `"KeyV"`, leave the state unchanged). -/
theorem key_handlers_frame (st : RunnerState) (c c' : String)
    (hc : c ∉ ["KeyV", "KeyW", "KeyS", "KeyA", "KeyD", "KeyQ", "KeyE", "KeyI",
      "KeyK", "KeyJ", "KeyL", "KeyU", "KeyO"])
    (hc' : c' ∉ ["KeyW", "KeyS", "KeyA", "KeyD", "KeyQ", "KeyE", "KeyI",
      "KeyK", "KeyJ", "KeyL", "KeyU", "KeyO"]) :
    keydown c st = st ∧
    keyup c' st = st ∧
    keyup "KeyV" st = st ∧
    keydown "KeyW" st = { st with keys_pressed := { st.keys_pressed with w := true } } ∧
    keydown "KeyS" st = { st with keys_pressed := { st.keys_pressed with s := true } } ∧
    keydown "KeyA" st = { st with keys_pressed := { st.keys_pressed with a := true } } ∧
    keydown "KeyD" st = { st with keys_pressed := { st.keys_pressed with d := true } } ∧
    keydown "KeyQ" st = { st with keys_pressed := { st.keys_pressed with q := true } } ∧
    keydown "KeyE" st = { st with keys_pressed := { st.keys_pressed with e := true } } ∧
    keydown "KeyI" st = { st with keys_pressed := { st.keys_pressed with i := true } } ∧
    keydown "KeyK" st = { st with keys_pressed := { st.keys_pressed with k := true } } ∧
    keydown "KeyJ" st = { st with keys_pressed := { st.keys_pressed with j := true } } ∧
    keydown "KeyL" st = { st with keys_pressed := { st.keys_pressed with l := true } } ∧
    keydown "KeyU" st = { st with keys_pressed := { st.keys_pressed with u := true } } ∧
    keydown "KeyO" st = { st with keys_pressed := { st.keys_pressed with o := true } } ∧
    keyup "KeyW" st = { st with keys_pressed := { st.keys_pressed with w := false } } ∧
    keyup "KeyS" st = { st with keys_pressed := { st.keys_pressed with s := false } } ∧
    keyup "KeyA" st = { st with keys_pressed := { st.keys_pressed with a := false } } ∧
    keyup "KeyD" st = { st with keys_pressed := { st.keys_pressed with d := false } } ∧
    keyup "KeyQ" st = { st with keys_pressed := { st.keys_pressed with q := false } } ∧
    keyup "KeyE" st = { st with keys_pressed := { st.keys_pressed with e := false } } ∧
    keyup "KeyI" st = { st with keys_pressed := { st.keys_pressed with i := false } } ∧
    keyup "KeyK" st = { st with keys_pressed := { st.keys_pressed with k := false } } ∧
    keyup "KeyJ" st = { st with keys_pressed := { st.keys_pressed with j := false } } ∧
    keyup "KeyL" st = { st with keys_pressed := { st.keys_pressed with l := false } } ∧
    keyup "KeyU" st = { st with keys_pressed := { st.keys_pressed with u := false } } ∧
    keyup "KeyO" st = { st with keys_pressed := { st.keys_pressed with o := false } } := by
  simp only [List.mem_cons, List.not_mem_nil, or_false, not_or] at hc hc'
  obtain ⟨h1, h2, h3, h4, h5, h6, h7, h8, h9, h10, h11, h12, h13⟩ := hc
  obtain ⟨g1, g2, g3, g4, g5, g6, g7, g8, g9, g10, g11, g12⟩ := hc'
  refine ⟨?_, ?_, ?_, ?_, ?_, ?_, ?_, ?_, ?_, ?_, ?_, ?_, ?_, ?_, ?_, ?_, ?_, ?_,
    ?_, ?_, ?_, ?_, ?_, ?_, ?_, ?_, ?_⟩
  · simp [keydown, h1, h2, h3, h4, h5, h6, h7, h8, h9, h10, h11, h12, h13]
  · simp [keyup, g1, g2, g3, g4, g5, g6, g7, g8, g9, g10, g11, g12]
  all_goals simp [keydown, keyup]

/-- Witness for `key_handlers_frame` at the initial state with the
unrecognized code `"Escape"` for keydown and `"KeyV"` for keyup. -/
theorem key_handlers_frame_witness :
    ("Escape" ∉ ["KeyV", "KeyW", "KeyS", "KeyA", "KeyD", "KeyQ", "KeyE", "KeyI",
        "KeyK", "KeyJ", "KeyL", "KeyU", "KeyO"]) ∧
    ("KeyV" ∉ ["KeyW", "KeyS", "KeyA", "KeyD", "KeyQ", "KeyE", "KeyI",
        "KeyK", "KeyJ", "KeyL", "KeyU", "KeyO"]) ∧
    (keydown "Escape" RunnerState.new = RunnerState.new ∧
      keyup "KeyV" RunnerState.new = RunnerState.new) :=
  ⟨by decide, by decide,
    ⟨(key_handlers_frame RunnerState.new "Escape" "KeyV" (by decide) (by decide)).1,
     (key_handlers_frame RunnerState.new "Escape" "KeyV" (by decide) (by decide)).2.2.1⟩⟩

theorem camKeyW_counter (st : RunnerState) : (camKeyW st).counter = st.counter := by
  unfold camKeyW; split <;> rfl

theorem camKeyS_counter (st : RunnerState) : (camKeyS st).counter = st.counter := by
  unfold camKeyS; split <;> rfl

theorem camKeyA_counter (st : RunnerState) : (camKeyA st).counter = st.counter := by
  unfold camKeyA; split <;> rfl

theorem camKeyD_counter (st : RunnerState) : (camKeyD st).counter = st.counter := by
  unfold camKeyD; split <;> rfl

theorem camKeyQ_counter (st : RunnerState) : (camKeyQ st).counter = st.counter := by
  unfold camKeyQ; split <;> rfl

theorem camKeyE_counter (st : RunnerState) : (camKeyE st).counter = st.counter := by
  unfold camKeyE; split <;> rfl

theorem camKeyI_counter (axA : Vec3 → Mat3) (st : RunnerState) :
    (camKeyI axA st).counter = st.counter := by
  unfold camKeyI; split <;> rfl

theorem camKeyK_counter (axA : Vec3 → Mat3) (st : RunnerState) :
    (camKeyK axA st).counter = st.counter := by
  unfold camKeyK; split <;> rfl

theorem camKeyJ_counter (axA : Vec3 → Mat3) (st : RunnerState) :
    (camKeyJ axA st).counter = st.counter := by
  unfold camKeyJ; split <;> rfl

theorem camKeyL_counter (axA : Vec3 → Mat3) (st : RunnerState) :
    (camKeyL axA st).counter = st.counter := by
  unfold camKeyL; split <;> rfl

theorem camKeyU_counter (axA : Vec3 → Mat3) (st : RunnerState) :
    (camKeyU axA st).counter = st.counter := by
  unfold camKeyU; split <;> rfl

theorem camKeyO_counter (axA : Vec3 → Mat3) (st : RunnerState) :
    (camKeyO axA st).counter = st.counter := by
  unfold camKeyO; split <;> rfl

theorem cameraStep_counter (axA : Vec3 → Mat3) (st : RunnerState) :
    (cameraStep axA st).counter = st.counter := by
  simp [cameraStep, camKeyO_counter, camKeyU_counter, camKeyL_counter, camKeyJ_counter,
    camKeyK_counter, camKeyI_counter, camKeyE_counter, camKeyQ_counter, camKeyD_counter,
    camKeyA_counter, camKeyS_counter, camKeyW_counter]

theorem wrap32_eq_self (n : ℤ) (h1 : -(2 ^ 31) ≤ n) (h2 : n < 2 ^ 31) : wrap32 n = n := by
  unfold wrap32; omega

/-- C8 counterexample: at `counter = 2^31 - 1` (an `i32` value, reached
after `2^31` ticks from the initial state) the tick does not increment
`counter` by 1 but wraps it to `-2^31`. -/
theorem physics_tick_counter_wrap_cex :
    (physicsStep (fun _ => mat3Id) (fun M => M)
        { RunnerState.new with counter := 2147483647 }).counter ≠ 2147483647 + 1 := by
  decide

/-- C8 (amended): within a physics tick, the camera updates (the full
`cameraStep`) are applied first, then `counter` is updated, then
`step_sim(PHYSICS_INTERVAL / 1000)` is applied to the body; the camera
updates never touch `counter`, and the tick updates `counter` to
`wrap32 (counter + 1)` (`i32` wrapping increment), which equals
`counter + 1` whenever `counter ≠ 2^31 - 1`. -/
theorem physics_tick_order_and_counter (axA : Vec3 → Mat3) (orth : Mat3 → Mat3)
    (st : RunnerState) (hlo : -(2 ^ 31) ≤ st.counter) (hhi : st.counter < 2 ^ 31) :
    physicsStep axA orth st =
      { cameraStep axA st with
          counter := wrap32 ((cameraStep axA st).counter + 1),
          rigid_body := stepSim axA orth (PHYSICS_INTERVAL / 1000)
            (cameraStep axA st).rigid_body } ∧
    (cameraStep axA st).counter = st.counter ∧
    (physicsStep axA orth st).counter = wrap32 (st.counter + 1) ∧
    (st.counter ≠ 2 ^ 31 - 1 → (physicsStep axA orth st).counter = st.counter + 1) := by
  have hcnt : (physicsStep axA orth st).counter = wrap32 (st.counter + 1) := by
    show wrap32 ((cameraStep axA st).counter + 1) = wrap32 (st.counter + 1)
    rw [cameraStep_counter]
  refine ⟨rfl, cameraStep_counter axA st, hcnt, fun hne => ?_⟩
  rw [hcnt, wrap32_eq_self] <;> omega

/-- Witness for `physics_tick_order_and_counter` at the initial state. -/
theorem physics_tick_order_and_counter_witness :
    -(2 ^ 31) ≤ RunnerState.new.counter ∧
    RunnerState.new.counter < 2 ^ 31 ∧
    RunnerState.new.counter ≠ 2 ^ 31 - 1 ∧
    (physicsStep (fun _ => mat3Id) (fun M => M) RunnerState.new).counter =
      RunnerState.new.counter + 1 :=
  ⟨by decide, by decide, by decide,
    (physics_tick_order_and_counter (fun _ => mat3Id) (fun M => M) RunnerState.new
      (by decide) (by decide)).2.2.2 (by decide)⟩

theorem camTranslationDelta_id :
    camTranslationDelta mat3Id ⟨camLinearSpeed, 0, 0⟩ = ⟨1 / 100, 0, 0⟩ := by
  rw [Vec3.ext_iff]
  refine ⟨?_, ?_, ?_⟩ <;>
    norm_num [camTranslationDelta, Mat3.toHomogeneous, mat3Id, Mat4.mulVec,
      Vec4.firstThree, camLinearSpeed, PHYSICS_INTERVAL]

theorem cameraStep_onlyD (axA : Vec3 → Mat3) (st : RunnerState)
    (hk : st.keys_pressed = { KeysPressed.new with d := true })
    (hr : st.camera_rot = mat3Id) :
    cameraStep axA st = { st with camera_pos := st.camera_pos + ⟨1 / 100, 0, 0⟩ } := by
  simp [cameraStep, camKeyW, camKeyS, camKeyA, camKeyD, camKeyQ, camKeyE,
    camKeyI, camKeyK, camKeyJ, camKeyL, camKeyU, camKeyO, hk, hr, KeysPressed.new,
    camTranslationDelta_id]

theorem physicsStep_camera_pos (axA : Vec3 → Mat3) (orth : Mat3 → Mat3) (st : RunnerState) :
    (physicsStep axA orth st).camera_pos = (cameraStep axA st).camera_pos := rfl

theorem physicsStep_camera_rot (axA : Vec3 → Mat3) (orth : Mat3 → Mat3) (st : RunnerState) :
    (physicsStep axA orth st).camera_rot = (cameraStep axA st).camera_rot := rfl

theorem physicsStep_keys (axA : Vec3 → Mat3) (orth : Mat3 → Mat3) (st : RunnerState) :
    (physicsStep axA orth st).keys_pressed = (cameraStep axA st).keys_pressed := rfl

theorem iterate_keyD_camera (axA : Vec3 → Mat3) (orth : Mat3 → Mat3) (n : ℕ) :
    ((physicsStep axA orth)^[n] (keydown "KeyD" RunnerState.new)).camera_pos
        = ⟨(n : ℚ) * (1 / 100), 0, 0⟩ ∧
    ((physicsStep axA orth)^[n] (keydown "KeyD" RunnerState.new)).camera_rot = mat3Id ∧
    ((physicsStep axA orth)^[n] (keydown "KeyD" RunnerState.new)).keys_pressed
        = { KeysPressed.new with d := true } := by
  induction n with
  | zero =>
    rw [Function.iterate_zero_apply]
    refine ⟨?_, rfl, rfl⟩
    rw [Vec3.ext_iff]
    refine ⟨?_, ?_, ?_⟩
    · show (0 : ℚ) = ((0 : ℕ) : ℚ) * (1 / 100)
      norm_num
    · rfl
    · rfl
  | succ m ih =>
    obtain ⟨hpos, hrot, hkeys⟩ := ih
    rw [Function.iterate_succ_apply']
    have hcam := cameraStep_onlyD axA
      ((physicsStep axA orth)^[m] (keydown "KeyD" RunnerState.new)) hkeys hrot
    refine ⟨?_, ?_, ?_⟩
    · rw [physicsStep_camera_pos, hcam]
      show ((physicsStep axA orth)^[m] (keydown "KeyD" RunnerState.new)).camera_pos
          + (⟨1 / 100, 0, 0⟩ : Vec3) = _
      rw [hpos, Vec3.ext_iff]
      refine ⟨?_, ?_, ?_⟩
      · show (m : ℚ) * (1 / 100) + 1 / 100 = ((m + 1 : ℕ) : ℚ) * (1 / 100)
        push_cast
        ring
      · show (0 : ℚ) + 0 = 0
        norm_num
      · show (0 : ℚ) + 0 = 0
        norm_num
    · rw [physicsStep_camera_rot, hcam]
      exact hrot
    · rw [physicsStep_keys, hcam]
      exact hkeys

/-- C6: from the default camera, holding only `"KeyD"` adds `0.01` to
`camera_pos.x` each physics tick (the step is the translation rotated by
`camera_rot`, which stays the identity), so after 100 ticks
`camera_pos.x = 1` (hence within `10^-6` of `1.0`) while `camera_pos.y` and
`camera_pos.z` keep their initial values; uniform in the axis-angle and
re-orthonormalization helpers. -/
theorem camera_strafe_keyD (axA : Vec3 → Mat3) (orth : Mat3 → Mat3) :
    (∀ n : ℕ, ((physicsStep axA orth)^[n] (keydown "KeyD" RunnerState.new)).camera_pos
        = ⟨(n : ℚ) * (1 / 100), 0, 0⟩) ∧
    (∀ n : ℕ, ((physicsStep axA orth)^[n + 1] (keydown "KeyD" RunnerState.new)).camera_pos.x
        = ((physicsStep axA orth)^[n] (keydown "KeyD" RunnerState.new)).camera_pos.x
          + 1 / 100) ∧
    |((physicsStep axA orth)^[100] (keydown "KeyD" RunnerState.new)).camera_pos.x - 1|
        ≤ 1 / 1000000 ∧
    ((physicsStep axA orth)^[100] (keydown "KeyD" RunnerState.new)).camera_pos.y
        = RunnerState.new.camera_pos.y ∧
    ((physicsStep axA orth)^[100] (keydown "KeyD" RunnerState.new)).camera_pos.z
        = RunnerState.new.camera_pos.z := by
  have hmain := iterate_keyD_camera axA orth
  refine ⟨fun n => (hmain n).1, fun n => ?_, ?_, ?_, ?_⟩
  · rw [(hmain n).1, (hmain (n + 1)).1]
    show ((n + 1 : ℕ) : ℚ) * (1 / 100) = (n : ℚ) * (1 / 100) + 1 / 100
    push_cast
    ring
  · rw [(hmain 100).1]
    show |((100 : ℕ) : ℚ) * (1 / 100) - 1| ≤ 1 / 1000000
    norm_num
  · rw [(hmain 100).1]
    rfl
  · rw [(hmain 100).1]
    rfl

theorem mat4_mul_adj (A : Mat4) : A.mul A.adj = Mat4.smul A.det mat4Id := by
  obtain ⟨a00, a01, a02, a03, a10, a11, a12, a13, a20, a21, a22, a23, a30, a31, a32, a33⟩ := A
  simp only [Mat4.mul, Mat4.adj, Mat4.smul, Mat4.det, mat4Id, det3, Mat4.mk.injEq]
  refine ⟨?_, ?_, ?_, ?_, ?_, ?_, ?_, ?_, ?_, ?_, ?_, ?_, ?_, ?_, ?_, ?_⟩ <;> ring

theorem mat4_adj_mul (A : Mat4) : A.adj.mul A = Mat4.smul A.det mat4Id := by
  obtain ⟨a00, a01, a02, a03, a10, a11, a12, a13, a20, a21, a22, a23, a30, a31, a32, a33⟩ := A
  simp only [Mat4.mul, Mat4.adj, Mat4.smul, Mat4.det, mat4Id, det3, Mat4.mk.injEq]
  refine ⟨?_, ?_, ?_, ?_, ?_, ?_, ?_, ?_, ?_, ?_, ?_, ?_, ?_, ?_, ?_, ?_⟩ <;> ring

theorem mat4_mul_smul (c : ℚ) (A B : Mat4) :
    A.mul (Mat4.smul c B) = Mat4.smul c (A.mul B) := by
  simp only [Mat4.mul, Mat4.smul, Mat4.mk.injEq]
  refine ⟨?_, ?_, ?_, ?_, ?_, ?_, ?_, ?_, ?_, ?_, ?_, ?_, ?_, ?_, ?_, ?_⟩ <;> ring

theorem mat4_smul_mul (c : ℚ) (A B : Mat4) :
    (Mat4.smul c A).mul B = Mat4.smul c (A.mul B) := by
  simp only [Mat4.mul, Mat4.smul, Mat4.mk.injEq]
  refine ⟨?_, ?_, ?_, ?_, ?_, ?_, ?_, ?_, ?_, ?_, ?_, ?_, ?_, ?_, ?_, ?_⟩ <;> ring

theorem mat4_smul_smul (a b : ℚ) (C : Mat4) :
    Mat4.smul a (Mat4.smul b C) = Mat4.smul (a * b) C := by
  simp only [Mat4.smul, Mat4.mk.injEq]
  refine ⟨?_, ?_, ?_, ?_, ?_, ?_, ?_, ?_, ?_, ?_, ?_, ?_, ?_, ?_, ?_, ?_⟩ <;> ring

theorem mat4_one_smul (C : Mat4) : Mat4.smul 1 C = C := by
  obtain ⟨c00, c01, c02, c03, c10, c11, c12, c13, c20, c21, c22, c23, c30, c31, c32, c33⟩ := C
  simp [Mat4.smul]

theorem mat4TryInverse_eq (A : Mat4) (h : A.det ≠ 0) :
    mat4TryInverse A = some (Mat4.smul (1 / A.det) A.adj) := by
  simp [mat4TryInverse, h]

theorem mat4TryInverse_right (A : Mat4) (h : A.det ≠ 0) :
    A.mul (Mat4.smul (1 / A.det) A.adj) = mat4Id := by
  rw [mat4_mul_smul, mat4_mul_adj, mat4_smul_smul, one_div, inv_mul_cancel₀ h,
    mat4_one_smul]

theorem mat4TryInverse_left (A : Mat4) (h : A.det ≠ 0) :
    (Mat4.smul (1 / A.det) A.adj).mul A = mat4Id := by
  rw [mat4_smul_mul, mat4_adj_mul, mat4_smul_smul, one_div, inv_mul_cancel₀ h,
    mat4_one_smul]

theorem cuboidToVertices_length_div (rb : RigidBody) (wf : Bool) :
    (cuboidToVertices rb wf).length / 3 = if wf then 24 else 36 := by
  cases wf <;> simp [cuboidToVertices, addVert]

theorem vectorToVertices_colored_length (p v : Vec3) (c : ℚ × ℚ × ℚ) (t : ℚ) :
    (vectorToVertices p v (some c) t).length = 84 := by
  simp [vectorToVertices, addVertColored]

theorem coloredVertices_length_div (st : RunnerState) :
    (vectorToVertices vec3Zero ⟨5, 0, 0⟩ (some (1, 0, 0)) 0.5
        ++ vectorToVertices vec3Zero ⟨0, 5, 0⟩ (some (0, 1, 0)) 0.5
        ++ vectorToVertices vec3Zero ⟨0, 0, 5⟩ (some (0, 0, 1)) 0.5
        ++ vectorToVertices st.rigid_body.pos st.rigid_body.lin_vel (some (1, 1, 0)) 0.1
        ++ vectorToVertices st.rigid_body.pos st.rigid_body.ang_mom
            (some (0, 1, 1)) 0.1).length / 6 = 70 := by
  simp only [List.length_append, vectorToVertices_colored_length]

/-- C9: under a nonsingular camera transform, the render tick issues exactly
this GPU command sequence: set up the plain program and its projection
uniform, upload the body geometry, clear the framebuffer to opaque black
before any draw call, draw the body as LINES when `wireframe` else
TRIANGLES, then with the colored program upload and draw as LINES the three
world-axis arrows (red +X, green +Y, blue +Z, length 5, tip 0.5) followed
by the `lin_vel` arrow in yellow and the `ang_mom` arrow in cyan, both
anchored at the body's position with tip 0.1; the same projection matrix is
handed to both programs. -/
theorem draw_trace_sequence (thf : ℚ) (st : RunnerState)
    (h : (cameraTransform st.camera_pos st.camera_rot).det ≠ 0) :
    ∃ P : Mat4, drawTrace thf st = some
      [GpuCmd.useProgram ProgKind.plain,
       GpuCmd.bindVertexArray ProgKind.plain,
       GpuCmd.setUniformProjection ProgKind.plain P,
       GpuCmd.bufferData (cuboidToVertices st.rigid_body st.wireframe),
       GpuCmd.clearColor 0 0 0 1,
       GpuCmd.clear,
       GpuCmd.drawArrays (if st.wireframe then DrawMode.lines else DrawMode.triangles) 0
         (if st.wireframe then 24 else 36),
       GpuCmd.useProgram ProgKind.colored,
       GpuCmd.bindVertexArray ProgKind.colored,
       GpuCmd.setUniformProjection ProgKind.colored P,
       GpuCmd.bufferData
         (vectorToVertices vec3Zero ⟨5, 0, 0⟩ (some (1, 0, 0)) 0.5
           ++ vectorToVertices vec3Zero ⟨0, 5, 0⟩ (some (0, 1, 0)) 0.5
           ++ vectorToVertices vec3Zero ⟨0, 0, 5⟩ (some (0, 0, 1)) 0.5
           ++ vectorToVertices st.rigid_body.pos st.rigid_body.lin_vel (some (1, 1, 0)) 0.1
           ++ vectorToVertices st.rigid_body.pos st.rigid_body.ang_mom (some (0, 1, 1)) 0.1),
       GpuCmd.drawArrays DrawMode.lines 0 70] := by
  refine ⟨Mat4.mul (perspectiveMatrix aspectRatioValue zNearValue zFarValue thf)
    (Mat4.smul (1 / (cameraTransform st.camera_pos st.camera_rot).det)
      (cameraTransform st.camera_pos st.camera_rot).adj), ?_⟩
  simp only [drawTrace, mat4TryInverse_eq _ h, Option.map_some']
  rw [cuboidToVertices_length_div, coloredVertices_length_div]

/-- Witness for `draw_trace_sequence` at the initial state (identity camera)
with `thf = 1`. -/
theorem draw_trace_sequence_witness :
    (cameraTransform RunnerState.new.camera_pos RunnerState.new.camera_rot).det ≠ 0 ∧
    ∃ P : Mat4, drawTrace 1 RunnerState.new = some
      [GpuCmd.useProgram ProgKind.plain,
       GpuCmd.bindVertexArray ProgKind.plain,
       GpuCmd.setUniformProjection ProgKind.plain P,
       GpuCmd.bufferData (cuboidToVertices RunnerState.new.rigid_body RunnerState.new.wireframe),
       GpuCmd.clearColor 0 0 0 1,
       GpuCmd.clear,
       GpuCmd.drawArrays
         (if RunnerState.new.wireframe then DrawMode.lines else DrawMode.triangles) 0
         (if RunnerState.new.wireframe then 24 else 36),
       GpuCmd.useProgram ProgKind.colored,
       GpuCmd.bindVertexArray ProgKind.colored,
       GpuCmd.setUniformProjection ProgKind.colored P,
       GpuCmd.bufferData
         (vectorToVertices vec3Zero ⟨5, 0, 0⟩ (some (1, 0, 0)) 0.5
           ++ vectorToVertices vec3Zero ⟨0, 5, 0⟩ (some (0, 1, 0)) 0.5
           ++ vectorToVertices vec3Zero ⟨0, 0, 5⟩ (some (0, 0, 1)) 0.5
           ++ vectorToVertices RunnerState.new.rigid_body.pos
               RunnerState.new.rigid_body.lin_vel (some (1, 1, 0)) 0.1
           ++ vectorToVertices RunnerState.new.rigid_body.pos
               RunnerState.new.rigid_body.ang_mom (some (0, 1, 1)) 0.1),
       GpuCmd.drawArrays DrawMode.lines 0 70] :=
  ⟨by norm_num [cameraTransform, translationHomogeneous, Mat3.toHomogeneous, mat3Id,
      Mat4.mul, Mat4.det, det3, RunnerState.new, vec3Zero],
   draw_trace_sequence 1 RunnerState.new
     (by norm_num [cameraTransform, translationHomogeneous, Mat3.toHomogeneous, mat3Id,
       Mat4.mul, Mat4.det, det3, RunnerState.new, vec3Zero])⟩

/-- C5: under a nonsingular camera transform, the projection matrix handed
to both GPU programs on a render tick is the perspective matrix with
aspect = 1.333, z_near = 0.01, z_far = 1000 (and `thf = tan(fovy / 2)` for
`fovy = 75` degrees), post-multiplied by the (two-sided) inverse of
`T(camera_pos) * R(camera_rot)`; no other value is ever set for the
projection uniform. -/
theorem draw_projection_matrix (thf : ℚ) (st : RunnerState)
    (h : (cameraTransform st.camera_pos st.camera_rot).det ≠ 0) :
    aspectRatioValue = 1.333 ∧ zNearValue = 0.01 ∧ zFarValue = 1000 ∧
    ∃ (tr : List GpuCmd) (B : Mat4),
      drawTrace thf st = some tr ∧
      (cameraTransform st.camera_pos st.camera_rot).mul B = mat4Id ∧
      B.mul (cameraTransform st.camera_pos st.camera_rot) = mat4Id ∧
      GpuCmd.setUniformProjection ProgKind.plain
        (Mat4.mul (perspectiveMatrix aspectRatioValue zNearValue zFarValue thf) B) ∈ tr ∧
      GpuCmd.setUniformProjection ProgKind.colored
        (Mat4.mul (perspectiveMatrix aspectRatioValue zNearValue zFarValue thf) B) ∈ tr ∧
      ∀ (pk : ProgKind) (M : Mat4), GpuCmd.setUniformProjection pk M ∈ tr →
        M = Mat4.mul (perspectiveMatrix aspectRatioValue zNearValue zFarValue thf) B := by
  refine ⟨rfl, rfl, rfl, ?_⟩
  set A := cameraTransform st.camera_pos st.camera_rot with hA
  set B := Mat4.smul (1 / A.det) A.adj with hB
  set P := Mat4.mul (perspectiveMatrix aspectRatioValue zNearValue zFarValue thf) B with hP
  refine ⟨[GpuCmd.useProgram ProgKind.plain,
      GpuCmd.bindVertexArray ProgKind.plain,
      GpuCmd.setUniformProjection ProgKind.plain P,
      GpuCmd.bufferData (cuboidToVertices st.rigid_body st.wireframe),
      GpuCmd.clearColor 0 0 0 1,
      GpuCmd.clear,
      GpuCmd.drawArrays (if st.wireframe then DrawMode.lines else DrawMode.triangles) 0
        ((cuboidToVertices st.rigid_body st.wireframe).length / 3),
      GpuCmd.useProgram ProgKind.colored,
      GpuCmd.bindVertexArray ProgKind.colored,
      GpuCmd.setUniformProjection ProgKind.colored P,
      GpuCmd.bufferData
        (vectorToVertices vec3Zero ⟨5, 0, 0⟩ (some (1, 0, 0)) 0.5
          ++ vectorToVertices vec3Zero ⟨0, 5, 0⟩ (some (0, 1, 0)) 0.5
          ++ vectorToVertices vec3Zero ⟨0, 0, 5⟩ (some (0, 0, 1)) 0.5
          ++ vectorToVertices st.rigid_body.pos st.rigid_body.lin_vel (some (1, 1, 0)) 0.1
          ++ vectorToVertices st.rigid_body.pos st.rigid_body.ang_mom (some (0, 1, 1)) 0.1),
      GpuCmd.drawArrays DrawMode.lines 0
        ((vectorToVertices vec3Zero ⟨5, 0, 0⟩ (some (1, 0, 0)) 0.5
          ++ vectorToVertices vec3Zero ⟨0, 5, 0⟩ (some (0, 1, 0)) 0.5
          ++ vectorToVertices vec3Zero ⟨0, 0, 5⟩ (some (0, 0, 1)) 0.5
          ++ vectorToVertices st.rigid_body.pos st.rigid_body.lin_vel (some (1, 1, 0)) 0.1
          ++ vectorToVertices st.rigid_body.pos st.rigid_body.ang_mom
              (some (0, 1, 1)) 0.1).length / 6)],
    B, ?_, mat4TryInverse_right A h, mat4TryInverse_left A h, ?_, ?_, ?_⟩
  · simp only [drawTrace, hA.symm, mat4TryInverse_eq A h, Option.map_some', hB.symm, hP.symm]
  · simp
  · simp
  · intro pk M hm
    simp only [List.mem_cons, List.not_mem_nil, or_false] at hm
    rcases hm with hm | hm | hm | hm | hm | hm | hm | hm | hm | hm | hm | hm <;>
      cases hm <;> exact hP

/-- Witness for `draw_projection_matrix` at the initial state (identity
camera) with `thf = 1`. -/
theorem draw_projection_matrix_witness :
    (cameraTransform RunnerState.new.camera_pos RunnerState.new.camera_rot).det ≠ 0 ∧
    (aspectRatioValue = 1.333 ∧ zNearValue = 0.01 ∧ zFarValue = 1000 ∧
      ∃ (tr : List GpuCmd) (B : Mat4),
        drawTrace 1 RunnerState.new = some tr ∧
        (cameraTransform RunnerState.new.camera_pos RunnerState.new.camera_rot).mul B
            = mat4Id ∧
        B.mul (cameraTransform RunnerState.new.camera_pos RunnerState.new.camera_rot)
            = mat4Id ∧
        GpuCmd.setUniformProjection ProgKind.plain
          (Mat4.mul (perspectiveMatrix aspectRatioValue zNearValue zFarValue 1) B) ∈ tr ∧
        GpuCmd.setUniformProjection ProgKind.colored
          (Mat4.mul (perspectiveMatrix aspectRatioValue zNearValue zFarValue 1) B) ∈ tr ∧
        ∀ (pk : ProgKind) (M : Mat4), GpuCmd.setUniformProjection pk M ∈ tr →
          M = Mat4.mul (perspectiveMatrix aspectRatioValue zNearValue zFarValue 1) B) :=
  ⟨by norm_num [cameraTransform, translationHomogeneous, Mat3.toHomogeneous, mat3Id,
      Mat4.mul, Mat4.det, det3, RunnerState.new, vec3Zero],
   draw_projection_matrix 1 RunnerState.new
     (by norm_num [cameraTransform, translationHomogeneous, Mat3.toHomogeneous, mat3Id,
       Mat4.mul, Mat4.det, det3, RunnerState.new, vec3Zero])⟩

end PhyssimViz
